import Mathlib

/-!
Shallow embedding of the project-portfolio web backend: response envelope,
error objects, GitHub client wrappers, database rows and the route handlers,
translated from the TypeScript source. External services (identity provider,
GitHub HTTP endpoints) are modelled by passing their outcome as a parameter;
the relational store is modelled as in-memory tables passed through each
handler.
-/

namespace DyProject

/-- Model of a thrown JavaScript Error object: the class name, the message,
and the optional numeric status attached to intentionally raised errors
(AuthError sets 401; access-control failures attach 403 via Object.assign).
Plain errors and zod validation errors carry no status. -/
structure JsError where
  name : String
  message : String
  status : Option Nat
deriving Repr, DecidableEq

/-- Authenticated Supabase user as returned by assertSupabaseUser. -/
structure SupaUser where
  id : String
deriving Repr, DecidableEq

/-- StandardResponse envelope from lib/response. -/
structure StdResponse (α : Type) where
  success : Bool
  data : Option α
  error : Option String
  status_code : Nat
deriving Repr, DecidableEq

/-- standardResponse from lib/response: on success the error field is
dropped, on failure the data field is dropped and an empty or missing
message falls back to "Unexpected error" (JS `error \x7c\x7c "Unexpected error"`,
where the empty string is falsy). -/
def standardResponse (α : Type) (success : Bool) (data : Option α)
    (statusCode : Nat) (error : Option String) : StdResponse α :=
  { success := success
    data := if success then data else none
    error :=
      if success then none
      else match error with
        | some msg => if msg = "" then some "Unexpected error" else some msg
        | none => some "Unexpected error"
    status_code := statusCode }

/-- HTTP reply: JSON body plus transport status (NextResponse.json with an
optional status override, defaulting to 200). -/
structure HttpReply (α : Type) where
  body : StdResponse α
  status : Nat
deriving Repr, DecidableEq

/-- Shared catch-block logic of every handler: an error that carries a
numeric status property keeps it, every other error maps to 500. -/
def errorStatus (e : JsError) : Nat :=
  match e.status with
  | some s => s
  | none => 500

/-- Catch block of every handler: build the failure envelope from the
caught error. -/
def catchReply (α : Type) (e : JsError) : HttpReply α :=
  { body := standardResponse α false none (errorStatus e) (some e.message)
    status := errorStatus e }

/-- AuthError raised by assertSupabaseUser (class AuthError extends Error,
name "AuthError", status defaulting to 401). -/
def authError (msg : String) : JsError :=
  { name := "AuthError", message := msg, status := some 401 }

/-- Plain `new Error(msg)`: no status property. -/
def plainError (msg : String) : JsError :=
  { name := "Error", message := msg, status := none }

/-- ZodError thrown by schema.parse: an Error subclass with no status
property. -/
def zodError (msg : String) : JsError :=
  { name := "ZodError", message := msg, status := none }

/-! ## GitHub API types (lib/github.ts) -/

/-- GithubApiUser returned by the /user endpoint. -/
structure GithubApiUser where
  id : Nat
  login : String
  email : Option String
  avatar_url : Option String
  html_url : String
  updated_at : Option String
deriving Repr, DecidableEq

/-- Repository owner object. -/
structure GithubApiRepositoryOwner where
  login : String
deriving Repr, DecidableEq

/-- GithubApiRepository returned by /repos/\x7bowner\x7d/\x7brepo\x7d. Counter
fields are optional because the handlers coalesce them with `?? 0`. -/
structure GithubApiRepository where
  id : Nat
  name : String
  full_name : String
  html_url : String
  description : Option String
  priv : Bool
  fork : Bool
  language : Option String
  stargazers_count : Option Nat
  watchers_count : Option Nat
  forks_count : Option Nat
  owner : Option GithubApiRepositoryOwner
  created_at : Option String
  updated_at : Option String
  pushed_at : Option String
  default_branch : Option String
  open_issues_count : Option Nat
  visibility : Option String
deriving Repr, DecidableEq

/-- One day of the GraphQL contribution calendar. -/
structure GithubContributionDayApi where
  date : String
  contributionCount : Nat
deriving Repr, DecidableEq

/-- One week of the GraphQL contribution calendar. -/
structure GithubContributionWeekApi where
  contributionDays : List GithubContributionDayApi
deriving Repr, DecidableEq

/-- Contribution calendar as returned inside the GraphQL payload. -/
structure GithubContributionCalendarApi where
  totalContributions : Nat
  weeks : List GithubContributionWeekApi
deriving Repr, DecidableEq

/-- GraphQL response wrapper: every level is optional, mirroring the
`data?.viewer?.contributionsCollection?.contributionCalendar` chain. -/
structure GithubContributionsResponse where
  calendar : Option GithubContributionCalendarApi
deriving Repr, DecidableEq

/-- Raw HTTP response from fetch: transport status and body text. -/
structure HttpResponse where
  status : Nat
  body : String
deriving Repr, DecidableEq

/-- fetch response.ok: status in the 2xx range. -/
def responseOk (r : HttpResponse) : Bool :=
  200 ≤ r.status && r.status < 300

/-- githubRequest from lib/github.ts, modelled over the raw upstream
response: a 2xx response is parsed (the parse function models
response.json), any other response throws a plain Error whose message is
the body text, falling back to a generic message naming the status when
the body is empty (JS `message \x7c\x7c ...` with the empty string falsy). No
status property is attached to the thrown error. -/
def githubRequest (α : Type) (r : HttpResponse) (parse : String → α) :
    Except JsError α :=
  if responseOk r then Except.ok (parse r.body)
  else Except.error (plainError
    (if r.body = "" then "GitHub request failed with " ++ toString r.status
     else r.body))

/-! ## Database rows -/

/-- Profile row (lib/profiles.ts ProfileRow). The role column holds the
strings "developer" or "expert"; optional like every selected column. -/
structure ProfileRow where
  id : String
  username : Option String
  full_name : Option String
  role : Option String
  avatar_url : Option String
deriving Repr, DecidableEq

/-- user_tokens vault row written by the token-storage endpoint. -/
structure UserTokenRow where
  user_id : String
  github_token : String
  github_id : Nat
  username : String
  email : Option String
  avatar_url : Option String
  profile_url : String
  updated_at : String
deriving Repr, DecidableEq

/-- Snapshot columns written by the import handler (the record literal in
POST /api/projects). -/
structure ImportSnapshot where
  user_id : String
  github_repo_id : Nat
  repository_full_name : String
  name : String
  description : Option String
  html_url : String
  priv : Bool
  fork : Bool
  language : Option String
  stars : Nat
  forks : Nat
  watchers : Nat
  open_issues : Nat
  visibility : Option String
  owner_username : Option String
  default_branch : Option String
  pushed_at : Option String
  created_at_github : Option String
  updated_at_github : Option String
  last_synced_at : String
deriving Repr, DecidableEq

/-- Project row: database-generated primary key, the import snapshot, and
the user-editable metadata columns that the import record does not touch. -/
structure ProjectRow where
  id : String
  snap : ImportSnapshot
  notes : Option String
  tags : List String
  status : String
  updated_at : Option String
deriving Repr, DecidableEq

/-- project_documentation row. The content column is opaque rich text. -/
structure DocRow where
  project_id : String
  content : Option String
  content_text : Option String
  updated_at : String
  updated_by : String
deriving Repr, DecidableEq

/-- project_documents attachment row. -/
structure AttachmentRow where
  id : String
  project_id : String
  file_name : String
  file_path : String
  file_url : Option String
  content_type : String
  size : Nat
  created_at : String
deriving Repr, DecidableEq

/-- In-memory model of the relational store, one list per table. The
documentationTableReady flag models whether the optional
project_documentation table exists (the isTableMissing branch). -/
structure Db where
  profiles : List ProfileRow
  projects : List ProjectRow
  user_tokens : List UserTokenRow
  project_documentation : List DocRow
  project_documents : List AttachmentRow
  documentationTableReady : Bool
deriving Repr, DecidableEq

/-! ## Library functions over the store -/

/-- getProfileByUserId from lib/profiles.ts: select the profile row whose
id equals the user id (maybeSingle). -/
def getProfileByUserId (profiles : List ProfileRow) (userId : String) :
    Option ProfileRow :=
  profiles.find? (fun p => p.id == userId)

/-- getProfileByUserId in state-passing form: the function body issues a
single select against the profiles table, so the table comes back
unchanged alongside the (possibly absent) row. -/
def getProfileByUserIdS (profiles : List ProfileRow) (userId : String) :
    Option ProfileRow × List ProfileRow :=
  (profiles.find? (fun p => p.id == userId), profiles)

/-- getGithubTokenForUser from lib/github-token.ts: select the vault row
for the user; a missing row or an empty token column throws a plain Error
"GitHub token not found for user" (no status property attached). -/
def getGithubTokenForUser (vault : List UserTokenRow) (userId : String) :
    Except JsError String :=
  match vault.find? (fun r => r.user_id == userId) with
  | none => Except.error (plainError "GitHub token not found for user")
  | some row =>
      if row.github_token = "" then
        Except.error (plainError "GitHub token not found for user")
      else Except.ok row.github_token

/-- Supabase upsert on user_tokens with onConflict user_id: replace the
row with the same user id if present, otherwise append. -/
def upsertUserToken (vault : List UserTokenRow) (rec : UserTokenRow) :
    List UserTokenRow :=
  if vault.any (fun r => r.user_id == rec.user_id) then
    vault.map (fun r => if r.user_id == rec.user_id then rec else r)
  else vault ++ [rec]

/-- Supabase upsert on projects with onConflict github_repo_id: on
conflict the snapshot columns supplied by the import record are updated
while the database keeps the existing primary key and the untouched
metadata columns; otherwise a fresh row is inserted with a generated id
and default metadata. -/
def upsertProject (projects : List ProjectRow) (rec : ImportSnapshot)
    (newId : String) : List ProjectRow :=
  if projects.any (fun r => r.snap.github_repo_id == rec.github_repo_id) then
    projects.map (fun r =>
      if r.snap.github_repo_id == rec.github_repo_id then
        { r with snap := rec }
      else r)
  else
    projects ++ [{ id := newId, snap := rec, notes := none, tags := [],
                   status := "draft", updated_at := none }]

/-- Supabase upsert on project_documentation with onConflict project_id. -/
def upsertDocumentation (docs : List DocRow) (rec : DocRow) : List DocRow :=
  if docs.any (fun r => r.project_id == rec.project_id) then
    docs.map (fun r => if r.project_id == rec.project_id then rec else r)
  else docs ++ [rec]

/-! ## Sorting helpers for the .order() query modifiers -/

/-- Insert into a descending-sorted list by a Nat key. -/
def insertDesc (α : Type) (key : α → Nat) (a : α) : List α → List α
  | [] => [a]
  | b :: bs => if key b ≤ key a then a :: b :: bs else b :: insertDesc α key a bs

/-- Insertion sort, descending by a Nat key (models .order with
ascending false). -/
def sortDesc (α : Type) (key : α → Nat) : List α → List α
  | [] => []
  | a :: rest => insertDesc α key a (sortDesc α key rest)

/-- Insert into a descending-sorted list by a String key. -/
def insertDescStr (α : Type) (key : α → String) (a : α) : List α → List α
  | [] => [a]
  | b :: bs => if key b ≤ key a then a :: b :: bs else b :: insertDescStr α key a bs

/-- Insertion sort, descending by a String key. -/
def sortDescStr (α : Type) (key : α → String) : List α → List α
  | [] => []
  | a :: rest => insertDescStr α key a (sortDescStr α key rest)

/-! ## POST /api/auth/store-github-token -/

/-- Parsed request body of the token-storage endpoint. -/
structure StorePayload where
  provider_token : String
  access_token : Option String
  refresh_token : Option String
deriving Repr, DecidableEq

/-- POST /api/auth/store-github-token. External outcomes are passed in:
auth is the result of assertSupabaseUser, fetchGithubUser maps the
supplied provider token to the outcome of the third-party /user call.
Returns the reply together with the resulting user_tokens table. -/
def storeGithubTokenPOST (vault : List UserTokenRow)
    (auth : Except JsError SupaUser) (payload : StorePayload)
    (fetchGithubUser : String → Except JsError GithubApiUser)
    (now : String) : HttpReply String × List UserTokenRow :=
  match auth with
  | Except.error e => (catchReply String e, vault)
  | Except.ok user =>
    if payload.provider_token = "" then
      (catchReply String (zodError "provider_token is required"), vault)
    else
      match fetchGithubUser payload.provider_token with
      | Except.error e => (catchReply String e, vault)
      | Except.ok gh =>
          let record : UserTokenRow :=
            { user_id := user.id
              github_token := payload.provider_token
              github_id := gh.id
              username := gh.login
              email := gh.email
              avatar_url := gh.avatar_url
              profile_url := gh.html_url
              updated_at := now }
          ({ body := standardResponse String true (some "GitHub token stored") 200 none
             status := 200 },
           upsertUserToken vault record)

/-! ## GET /api/github/contributions -/

/-- Flattened calendar entry produced by the handler. -/
structure ContributionEntry where
  date : String
  count : Nat
deriving Repr, DecidableEq

/-- Payload of GET /api/github/contributions. -/
structure ContributionsPayload where
  total_contributions : Nat
  contributions : List ContributionEntry
deriving Repr, DecidableEq

/-- Flattening in the handler: weeks.flatMap over contributionDays,
mapping each day to its date and contributionCount. -/
def flattenContributions (weeks : List GithubContributionWeekApi) :
    List ContributionEntry :=
  weeks.flatMap (fun week =>
    week.contributionDays.map (fun day =>
      { date := day.date, count := day.contributionCount }))

/-- GET /api/github/contributions: authenticate, read the vault token,
run the GraphQL query, flatten the calendar. A missing calendar yields an
empty list and total 0. -/
def contributionsGET (db : Db) (auth : Except JsError SupaUser)
    (fetchGithubContributions : String → Except JsError GithubContributionsResponse) :
    HttpReply ContributionsPayload :=
  match auth with
  | Except.error e => catchReply ContributionsPayload e
  | Except.ok user =>
    match getGithubTokenForUser db.user_tokens user.id with
    | Except.error e => catchReply ContributionsPayload e
    | Except.ok token =>
      match fetchGithubContributions token with
      | Except.error e => catchReply ContributionsPayload e
      | Except.ok data =>
        let payload : ContributionsPayload :=
          match data.calendar with
          | some cal =>
              { total_contributions := cal.totalContributions
                contributions := flattenContributions cal.weeks }
          | none => { total_contributions := 0, contributions := [] }
        { body := standardResponse ContributionsPayload true (some payload) 200 none
          status := 200 }

/-! ## GET /api/projects -/

/-- Group of projects per owner built by the expert view. Each project
carries the profiles field attached to it by the handler. -/
structure OwnerGroup where
  owner_id : String
  owner : Option ProfileRow
  projects : List (ProjectRow × Option ProfileRow)
deriving Repr, DecidableEq

/-- One reduce step of the grouping: append the project to the existing
group for its owner id, or start a new group (JS object insertion order,
surfaced by Object.values). The source falls back to the key "unknown"
only for a null owner id; the user_id column is non-null here. -/
def addToGroups (groups : List OwnerGroup)
    (p : ProjectRow × Option ProfileRow) : List OwnerGroup :=
  let ownerId := p.1.snap.user_id
  if groups.any (fun g => g.owner_id == ownerId) then
    groups.map (fun g =>
      if g.owner_id == ownerId then { g with projects := g.projects ++ [p] }
      else g)
  else
    groups ++ [{ owner_id := ownerId, owner := p.2, projects := [p] }]

/-- The reduce over all (sorted, profile-enriched) projects. -/
def groupProjects (l : List (ProjectRow × Option ProfileRow)) :
    List OwnerGroup :=
  l.foldl addToGroups []

/-- Unique owner ids of the project rows, dropping falsy (empty) ids
(the [...new Set(...)] with filter(Boolean) step). -/
def expertUserIds (projects : List ProjectRow) : List String :=
  ((projects.map (fun p => p.snap.user_id)).filter (fun s => s ≠ "")).dedup

/-- Payload of GET /api/projects: grouped data for the expert view, the
rows owned by the caller (with attachment counts) otherwise. -/
inductive ProjectsGETData where
  | grouped (groups : List OwnerGroup)
  | own (rows : List (ProjectRow × Nat))
deriving Repr, DecidableEq

/-- GET /api/projects. The view query parameter defaults to "developer".
The expert branch reads every project sorted by stars descending,
attaches owner profiles (profile ids are unique, the table primary key)
and groups by owner id; it never consults the profile or
role of the caller. The developer branch returns the rows of the caller ordered by
updated_at descending with attachment counts. -/
def projectsGET (db : Db) (auth : Except JsError SupaUser)
    (view : Option String) : HttpReply ProjectsGETData :=
  match auth with
  | Except.error e => catchReply ProjectsGETData e
  | Except.ok user =>
    let v := view.getD "developer"
    if v = "expert" then
      let projectsData := sortDesc ProjectRow (fun p => p.snap.stars) db.projects
      let userIds := expertUserIds projectsData
      let profilesData := db.profiles.filter (fun pr => userIds.contains pr.id)
      let projectsWithProfiles := projectsData.map (fun p =>
        (p, profilesData.find? (fun pr => pr.id == p.snap.user_id)))
      let grouped := groupProjects projectsWithProfiles
      { body := standardResponse ProjectsGETData true
          (some (ProjectsGETData.grouped grouped)) 200 none
        status := 200 }
    else
      let own := db.projects.filter (fun p => p.snap.user_id == user.id)
      let ordered := sortDescStr ProjectRow (fun p => p.updated_at.getD "") own
      let rows := ordered.map (fun p =>
        (p, (db.project_documents.filter (fun d => d.project_id == p.id)).length))
      { body := standardResponse ProjectsGETData true
          (some (ProjectsGETData.own rows)) 200 none
        status := 200 }

/-! ## POST /api/projects -/

/-- Parsed request body of the import endpoint. -/
structure ImportBody where
  repository_full_name : String
deriving Repr, DecidableEq

/-- Split a character list on the slash separator (executable model of
the segment structure the regex inspects). -/
def splitOnSlash : List Char → List (List Char)
  | [] => [[]]
  | c :: rest =>
      let r := splitOnSlash rest
      if c = '/' then [] :: r
      else
        match r with
        | s :: ss => (c :: s) :: ss
        | [] => [[c]]

/-- importSchema validation: non-empty and matching the strict owner/repo
regex (exactly one slash, both segments non-empty). -/
def importSchemaValid (s : String) : Bool :=
  match splitOnSlash s.toList with
  | [owner, repo] => !owner.isEmpty && !repo.isEmpty
  | _ => false

/-- The record literal built by the import handler from the fetched
repository snapshot. -/
def importRecord (userId : String) (repo : GithubApiRepository)
    (fullName : String) (now : String) : ImportSnapshot :=
  { user_id := userId
    github_repo_id := repo.id
    repository_full_name := fullName
    name := repo.name
    description := repo.description
    html_url := repo.html_url
    priv := repo.priv
    fork := repo.fork
    language := repo.language
    stars := repo.stargazers_count.getD 0
    forks := repo.forks_count.getD 0
    watchers := repo.watchers_count.getD 0
    open_issues := repo.open_issues_count.getD 0
    visibility := repo.visibility
    owner_username := repo.owner.map (fun o => o.login)
    default_branch := repo.default_branch
    pushed_at := repo.pushed_at
    created_at_github := repo.created_at
    updated_at_github := repo.updated_at
    last_synced_at := now }

/-- External calls the import handler can make, recorded in order. -/
inductive ExtCall where
  | vaultLookup
  | githubFetch
deriving Repr, DecidableEq

/-- POST /api/projects: authenticate, validate the body against
importSchema (a zod failure carries no status property), look up the
vault token, fetch the repository snapshot, then upsert keyed by
github_repo_id and return the stored row with 201. The third component
lists the external calls made, in order. -/
def projectsPOST (db : Db) (auth : Except JsError SupaUser)
    (body : ImportBody)
    (fetchRepoByFullName : String → String → Except JsError GithubApiRepository)
    (now : String) (newId : String) :
    HttpReply ProjectRow × Db × List ExtCall :=
  match auth with
  | Except.error e => (catchReply ProjectRow e, db, [])
  | Except.ok user =>
    if importSchemaValid body.repository_full_name then
      match getGithubTokenForUser db.user_tokens user.id with
      | Except.error e => (catchReply ProjectRow e, db, [ExtCall.vaultLookup])
      | Except.ok token =>
        match fetchRepoByFullName token body.repository_full_name with
        | Except.error e =>
            (catchReply ProjectRow e, db, [ExtCall.vaultLookup, ExtCall.githubFetch])
        | Except.ok repo =>
          let record := importRecord user.id repo body.repository_full_name now
          let projects1 := upsertProject db.projects record newId
          let row := projects1.find? (fun r =>
            r.snap.github_repo_id == record.github_repo_id)
          ({ body := standardResponse ProjectRow true row 201 none, status := 201 },
           { db with projects := projects1 },
           [ExtCall.vaultLookup, ExtCall.githubFetch])
    else
      (catchReply ProjectRow (zodError "repository_full_name must be owner/repo"),
       db, [])

/-! ## Project-scoped access checks -/

/-- profile?.role === "expert" on an optional profile row. -/
def isExpertRole (profile : Option ProfileRow) : Bool :=
  match profile with
  | some p => p.role == some "expert"
  | none => false

/-- The 403 error thrown by ensureAccess (a plain Error with a status
property attached via Object.assign). -/
def notAuthorizedError : JsError :=
  { name := "Error", message := "Not authorized", status := some 403 }

/-- Result of the documentation route ensureAccess helper. -/
structure AccessResult where
  project : Option ProjectRow
  profile : Option ProfileRow
  isOwner : Bool
  isExpert : Bool
deriving Repr, DecidableEq

/-- ensureAccess of the documentation route: look up the caller profile,
select the project row; when the project is absent return it as none
(the handler maps this to 404); otherwise throw 403 unless the caller is
the owner or an expert. -/
def ensureAccessDocumentation (db : Db) (projectId : String)
    (userId : String) : Except JsError AccessResult :=
  let profile := getProfileByUserId db.profiles userId
  match db.projects.find? (fun r => r.id == projectId) with
  | none =>
      Except.ok { project := none, profile := profile, isOwner := false
                  isExpert := isExpertRole profile }
  | some data =>
      let isOwner := data.snap.user_id == userId
      let isExpert := isExpertRole profile
      if !isOwner && !isExpert then Except.error notAuthorizedError
      else
        Except.ok { project := some data, profile := profile
                    isOwner := isOwner, isExpert := isExpert }

/-- Result of the attachments route ensureAccess helper (it does not
expose the owner/expert flags). -/
structure AttachAccess where
  project : Option ProjectRow
  profile : Option ProfileRow
deriving Repr, DecidableEq

/-- ensureAccess of the attachments route: same policy as the
documentation variant. -/
def ensureAccessAttachments (db : Db) (projectId : String)
    (userId : String) : Except JsError AttachAccess :=
  let profile := getProfileByUserId db.profiles userId
  match db.projects.find? (fun r => r.id == projectId) with
  | none => Except.ok { project := none, profile := profile }
  | some data =>
      let isOwner := data.snap.user_id == userId
      let isExpert := isExpertRole profile
      if !isOwner && !isExpert then Except.error notAuthorizedError
      else Except.ok { project := some data, profile := profile }

/-! ## GET and PUT /api/projects/\x7bid\x7d/documentation -/

/-- The 404 reply shared by all project-scoped handlers. -/
def projectNotFoundReply (α : Type) : HttpReply α :=
  { body := standardResponse α false none 404 (some "Project not found")
    status := 404 }

/-- GET documentation: ensureAccess, 404 when the project is absent, then
return the (possibly absent) documentation row; a missing table degrades
to success with null data. -/
def documentationGET (db : Db) (auth : Except JsError SupaUser)
    (projectId : String) : HttpReply DocRow :=
  match auth with
  | Except.error e => catchReply DocRow e
  | Except.ok user =>
    match ensureAccessDocumentation db projectId user.id with
    | Except.error e => catchReply DocRow e
    | Except.ok access =>
      match access.project with
      | none => projectNotFoundReply DocRow
      | some _ =>
        if db.documentationTableReady then
          { body := standardResponse DocRow true
              (db.project_documentation.find? (fun d => d.project_id == projectId))
              200 none
            status := 200 }
        else
          { body := standardResponse DocRow true none 200 none, status := 200 }

/-- Parsed body of the documentation PUT (updateSchema): opaque rich-text
content and a plain-text mirror capped at 20000 characters. -/
structure UpdateDocPayload where
  content : Option String
  content_text : Option String
deriving Repr, DecidableEq

/-- updateSchema.parse: reject a content_text longer than 20000 with a
ZodError (which carries no status property). -/
def parseUpdateSchema (p : UpdateDocPayload) : Except JsError UpdateDocPayload :=
  match p.content_text with
  | some s =>
      if s.length ≤ 20000 then Except.ok p
      else Except.error (zodError "content_text too long")
  | none => Except.ok p

/-- PUT documentation: ensureAccess, 404 when the project is absent, 403
unless the caller is the literal owner, then parse the body and upsert
the documentation row keyed by project id; a missing table yields 503. -/
def documentationPUT (db : Db) (auth : Except JsError SupaUser)
    (projectId : String) (payload : UpdateDocPayload) (now : String) :
    HttpReply DocRow × Db :=
  match auth with
  | Except.error e => (catchReply DocRow e, db)
  | Except.ok user =>
    match ensureAccessDocumentation db projectId user.id with
    | Except.error e => (catchReply DocRow e, db)
    | Except.ok access =>
      match access.project with
      | none => (projectNotFoundReply DocRow, db)
      | some _ =>
        if access.isOwner then
          match parseUpdateSchema payload with
          | Except.error e => (catchReply DocRow e, db)
          | Except.ok p =>
            if db.documentationTableReady then
              let row : DocRow :=
                { project_id := projectId, content := p.content
                  content_text := p.content_text, updated_at := now
                  updated_by := user.id }
              ({ body := standardResponse DocRow true (some row) 200 none
                 status := 200 },
               { db with project_documentation :=
                   upsertDocumentation db.project_documentation row })
            else
              ({ body := standardResponse DocRow false none 503
                   (some "Project documentation storage is not configured. Please run the associated migration.")
                 status := 503 }, db)
        else
          ({ body := standardResponse DocRow false none 403
               (some "Only project owners can update documentation")
             status := 403 }, db)

/-! ## GET and POST /api/projects/\x7bid\x7d/attachments -/

/-- GET attachments: ensureAccess, 404 when the project is absent, then
the attachment rows of the project ordered by created_at descending. -/
def attachmentsGET (db : Db) (auth : Except JsError SupaUser)
    (projectId : String) : HttpReply (List AttachmentRow) :=
  match auth with
  | Except.error e => catchReply (List AttachmentRow) e
  | Except.ok user =>
    match ensureAccessAttachments db projectId user.id with
    | Except.error e => catchReply (List AttachmentRow) e
    | Except.ok access =>
      match access.project with
      | none => projectNotFoundReply (List AttachmentRow)
      | some _ =>
        let rows := sortDescStr AttachmentRow (fun d => d.created_at)
          (db.project_documents.filter (fun d => d.project_id == projectId))
        { body := standardResponse (List AttachmentRow) true (some rows) 200 none
          status := 200 }

/-- Uploaded multipart file as seen by the handler. -/
structure UploadFile where
  name : String
  contentType : String
  size : Nat
deriving Repr, DecidableEq

/-- POST attachments: ensureAccess, 404 when the project is absent, 400
when no files are supplied; otherwise upload each file to object storage
under ownerId/projectId/timestamp-name and insert one metadata row per
file (ids generated by the database, public URLs by the storage
service). -/
def attachmentsPOST (db : Db) (auth : Except JsError SupaUser)
    (projectId : String) (files : List UploadFile) (nowMs : String)
    (publicUrlOf : String → Option String) (genId : Nat → String) :
    HttpReply (List AttachmentRow) × Db :=
  match auth with
  | Except.error e => (catchReply (List AttachmentRow) e, db)
  | Except.ok user =>
    match ensureAccessAttachments db projectId user.id with
    | Except.error e => (catchReply (List AttachmentRow) e, db)
    | Except.ok access =>
      match access.project with
      | none => (projectNotFoundReply (List AttachmentRow), db)
      | some project =>
        if files.length = 0 then
          ({ body := standardResponse (List AttachmentRow) false none 400
               (some "No files provided")
             status := 400 }, db)
        else
          let uploads := files.enum.map (fun pair =>
            let filePath := project.snap.user_id ++ "/" ++ projectId ++ "/" ++
              nowMs ++ "-" ++ pair.2.name
            { id := genId pair.1
              project_id := projectId
              file_name := pair.2.name
              file_path := filePath
              file_url := publicUrlOf filePath
              content_type := pair.2.contentType
              size := pair.2.size
              created_at := nowMs : AttachmentRow })
          ({ body := standardResponse (List AttachmentRow) true (some uploads) 201 none
             status := 201 },
           { db with project_documents := db.project_documents ++ uploads })

/-! ## GET and PATCH /api/projects/\x7bid\x7d (metadata route) -/

/-- GET project detail: authenticate, look up the caller profile, select
the project (404 when absent), then enforce owner-or-expert (403 returned
directly, not thrown) and reply with the row and its attachment rows. -/
def projectDetailGET (db : Db) (auth : Except JsError SupaUser)
    (projectId : String) : HttpReply (ProjectRow × List AttachmentRow) :=
  match auth with
  | Except.error e => catchReply (ProjectRow × List AttachmentRow) e
  | Except.ok user =>
    let profile := getProfileByUserId db.profiles user.id
    match db.projects.find? (fun r => r.id == projectId) with
    | none => projectNotFoundReply (ProjectRow × List AttachmentRow)
    | some data =>
      let isOwner := data.snap.user_id == user.id
      let isExpert := isExpertRole profile
      if !isOwner && !isExpert then
        { body := standardResponse (ProjectRow × List AttachmentRow) false none
            403 (some "Not authorized")
          status := 403 }
      else
        let docs := db.project_documents.filter (fun d => d.project_id == projectId)
        { body := standardResponse (ProjectRow × List AttachmentRow) true
            (some (data, docs)) 200 none
          status := 200 }

/-- Parsed body of the metadata PATCH (updateSchema of the detail route):
each field is optional; notes may be explicitly null. -/
structure UpdateProjectPayload where
  notes : Option (Option String)
  tags : Option (List String)
  status : Option String
deriving Repr, DecidableEq

/-- updateSchema.parse of the detail route: the status field must be one
of the three allowed values when present. -/
def parseProjectUpdateSchema (p : UpdateProjectPayload) :
    Except JsError UpdateProjectPayload :=
  match p.status with
  | some s =>
      if s = "draft" || s = "in_review" || s = "published" then Except.ok p
      else Except.error (zodError "invalid status")
  | none => Except.ok p

/-- Apply the PATCH update payload to a project row: only the supplied
fields change, and updated_at is stamped. -/
def applyProjectUpdate (p : UpdateProjectPayload) (now : String)
    (r : ProjectRow) : ProjectRow :=
  { r with
    notes := match p.notes with | some v => v | none => r.notes
    tags := match p.tags with | some v => v | none => r.tags
    status := match p.status with | some v => v | none => r.status
    updated_at := some now }

/-- PATCH project detail: authenticate, parse the body (before the
project lookup), select the project (404 when absent), enforce
owner-or-expert (403 returned directly), then update the row. -/
def projectDetailPATCH (db : Db) (auth : Except JsError SupaUser)
    (projectId : String) (payload : UpdateProjectPayload) (now : String) :
    HttpReply ProjectRow × Db :=
  match auth with
  | Except.error e => (catchReply ProjectRow e, db)
  | Except.ok user =>
    let profile := getProfileByUserId db.profiles user.id
    match parseProjectUpdateSchema payload with
    | Except.error e => (catchReply ProjectRow e, db)
    | Except.ok p =>
      match db.projects.find? (fun r => r.id == projectId) with
      | none => (projectNotFoundReply ProjectRow, db)
      | some data =>
        let isOwner := data.snap.user_id == user.id
        let isExpert := isExpertRole profile
        if !isOwner && !isExpert then
          ({ body := standardResponse ProjectRow false none 403
               (some "Not authorized")
             status := 403 }, db)
        else
          let projects1 := db.projects.map (fun r =>
            if r.id == projectId then applyProjectUpdate p now r else r)
          let updated := projects1.find? (fun r => r.id == projectId)
          ({ body := standardResponse ProjectRow true updated 200 none
             status := 200 },
           { db with projects := projects1 })

/-! ## Concrete fixtures used by the witnesses -/

/-- Concrete developer profile. -/
def ownerProfile : ProfileRow :=
  { id := "owner-1", username := none, full_name := none
    role := some "developer", avatar_url := none }

/-- Concrete expert profile. -/
def expertProfile : ProfileRow :=
  { id := "expert-1", username := none, full_name := none
    role := some "expert", avatar_url := none }

/-- Concrete import snapshot owned by owner-1. -/
def sampleSnap : ImportSnapshot :=
  { user_id := "owner-1", github_repo_id := 42
    repository_full_name := "octocat/Hello-World", name := "Hello-World"
    description := none, html_url := "https://example/hw", priv := false
    fork := false, language := none, stars := 3, forks := 1, watchers := 2
    open_issues := 0, visibility := some "public"
    owner_username := some "octocat", default_branch := some "main"
    pushed_at := none, created_at_github := none, updated_at_github := none
    last_synced_at := "t0" }

/-- Concrete project row. -/
def sampleProject : ProjectRow :=
  { id := "proj-1", snap := sampleSnap, notes := none, tags := []
    status := "draft", updated_at := none }

/-- Concrete vault row for owner-1. -/
def sampleTokenRow : UserTokenRow :=
  { user_id := "owner-1", github_token := "tok-1", github_id := 7
    username := "octocat", email := none, avatar_url := none
    profile_url := "https://example/p", updated_at := "t0" }

/-- Concrete database used by the witnesses. -/
def sampleDb : Db :=
  { profiles := [ownerProfile, expertProfile], projects := [sampleProject]
    user_tokens := [sampleTokenRow], project_documentation := []
    project_documents := [], documentationTableReady := true }

/-- Concrete empty database. -/
def emptyDb : Db :=
  { profiles := [], projects := [], user_tokens := []
    project_documentation := [], project_documents := []
    documentationTableReady := true }

/-- Concrete repository snapshot matching sampleSnap. -/
def sampleRepo : GithubApiRepository :=
  { id := 42, name := "Hello-World", full_name := "octocat/Hello-World"
    html_url := "https://example/hw", description := none, priv := false
    fork := false, language := none, stargazers_count := some 3
    watchers_count := some 2, forks_count := some 1
    owner := some { login := "octocat" }, created_at := none
    updated_at := none, pushed_at := none, default_branch := some "main"
    open_issues_count := some 0, visibility := some "public" }

/-- Concrete GitHub user profile. -/
def sampleGithubUser : GithubApiUser :=
  { id := 7, login := "octocat", email := none, avatar_url := none
    html_url := "https://example/octocat", updated_at := none }

/-- Concrete 7-day week helper. -/
def sampleWeek (prefix_ : String) (base : Nat) : GithubContributionWeekApi :=
  { contributionDays :=
      (List.range 7).map (fun k =>
        { date := prefix_ ++ toString k, contributionCount := base + k }) }

/-- Concrete two-week contribution calendar. -/
def sampleCalendar : GithubContributionCalendarApi :=
  { totalContributions := 77
    weeks := [sampleWeek "2026-01-0" 0, sampleWeek "2026-01-1" 10] }

/-! ## Claims -/

/-- C2: when validating the supplied provider token against the
third-party profile endpoint fails, the token-storage endpoint leaves the
user_tokens table exactly as it was and reports failure; the profile
fetch gates every upsert. -/
theorem store_token_invalid_credential_preserves_vault
    (vault : List UserTokenRow) (auth : Except JsError SupaUser)
    (payload : StorePayload)
    (fetchGithubUser : String → Except JsError GithubApiUser)
    (now : String) (e : JsError)
    (hfetch : fetchGithubUser payload.provider_token = Except.error e) :
    (storeGithubTokenPOST vault auth payload fetchGithubUser now).2 = vault ∧
    (storeGithubTokenPOST vault auth payload fetchGithubUser now).1.body.success = false := by
  cases auth with
  | error ea => simp [storeGithubTokenPOST, catchReply, standardResponse]
  | ok user =>
    by_cases hp : payload.provider_token = ""
    · simp [storeGithubTokenPOST, hp, catchReply, standardResponse]
    · simp [storeGithubTokenPOST, hp, hfetch, catchReply, standardResponse]

/-- Witness for C2 at a concrete vault and a profile fetch that rejects
the token. -/
theorem store_token_invalid_credential_preserves_vault_witness :
    (storeGithubTokenPOST [sampleTokenRow] (Except.ok { id := "owner-1" })
        { provider_token := "bad-token", access_token := none, refresh_token := none }
        (fun _ => Except.error (plainError "Bad credentials")) "t1").2
      = [sampleTokenRow] ∧
    (storeGithubTokenPOST [sampleTokenRow] (Except.ok { id := "owner-1" })
        { provider_token := "bad-token", access_token := none, refresh_token := none }
        (fun _ => Except.error (plainError "Bad credentials")) "t1").1.body.success = false :=
  store_token_invalid_credential_preserves_vault [sampleTokenRow]
    (Except.ok { id := "owner-1" })
    { provider_token := "bad-token", access_token := none, refresh_token := none }
    (fun _ => Except.error (plainError "Bad credentials")) "t1"
    (plainError "Bad credentials") rfl

/-- C3: for a user with no vault row, getGithubTokenForUser fails with the
plain "GitHub token not found for user" error, whose class differs from
the AuthError used for bearer failures and whose mapped status is 500
rather than 401; the contributions handler surfaces exactly that distinct
message and status. -/
theorem token_not_linked_distinct_from_auth_failure
    (db : Db) (u : SupaUser)
    (fetch : String → Except JsError GithubContributionsResponse)
    (hnorow : db.user_tokens.find? (fun r => r.user_id == u.id) = none) :
    getGithubTokenForUser db.user_tokens u.id
      = Except.error (plainError "GitHub token not found for user") ∧
    (∀ msg, (plainError "GitHub token not found for user").name ≠ (authError msg).name) ∧
    errorStatus (plainError "GitHub token not found for user") = 500 ∧
    errorStatus (plainError "GitHub token not found for user") ≠ 401 ∧
    (contributionsGET db (Except.ok u) fetch).status = 500 ∧
    (contributionsGET db (Except.ok u) fetch).body.success = false ∧
    (contributionsGET db (Except.ok u) fetch).body.error
      = some "GitHub token not found for user" := by
  refine ⟨?_, ?_, ?_, ?_, ?_, ?_, ?_⟩ <;>
    simp [getGithubTokenForUser, hnorow, contributionsGET, catchReply,
      standardResponse, errorStatus, plainError, authError]

/-- Witness for C3: owner-1 is the only linked user, so user-2 has no
vault row. -/
theorem token_not_linked_distinct_from_auth_failure_witness :
    getGithubTokenForUser sampleDb.user_tokens ("user-2" : String)
      = Except.error (plainError "GitHub token not found for user") ∧
    (∀ msg, (plainError "GitHub token not found for user").name ≠ (authError msg).name) ∧
    errorStatus (plainError "GitHub token not found for user") = 500 ∧
    errorStatus (plainError "GitHub token not found for user") ≠ 401 ∧
    (contributionsGET sampleDb (Except.ok { id := "user-2" })
        (fun _ => Except.ok { calendar := none })).status = 500 ∧
    (contributionsGET sampleDb (Except.ok { id := "user-2" })
        (fun _ => Except.ok { calendar := none })).body.success = false ∧
    (contributionsGET sampleDb (Except.ok { id := "user-2" })
        (fun _ => Except.ok { calendar := none })).body.error
      = some "GitHub token not found for user" :=
  token_not_linked_distinct_from_auth_failure sampleDb { id := "user-2" }
    (fun _ => Except.ok { calendar := none }) (by decide)

/-- C4 counterexample: a malformed repository_full_name makes the import
fail with status 500 (the zod error carries no status property and the
catch-all maps it to 500), not with a 4xx status as claimed; the failure
does happen before any vault lookup or third-party call. -/
theorem import_malformed_name_4xx_counterexample :
    (projectsPOST sampleDb (Except.ok { id := "owner-1" })
        { repository_full_name := "no-slash" }
        (fun _ _ => Except.error (plainError "unreachable")) "t1" "gen-1").1.status
      = 500 ∧
    ¬ (400 ≤ (projectsPOST sampleDb (Except.ok { id := "owner-1" })
        { repository_full_name := "no-slash" }
        (fun _ _ => Except.error (plainError "unreachable")) "t1" "gen-1").1.status ∧
       (projectsPOST sampleDb (Except.ok { id := "owner-1" })
        { repository_full_name := "no-slash" }
        (fun _ _ => Except.error (plainError "unreachable")) "t1" "gen-1").1.status < 500) ∧
    (projectsPOST sampleDb (Except.ok { id := "owner-1" })
        { repository_full_name := "no-slash" }
        (fun _ _ => Except.error (plainError "unreachable")) "t1" "gen-1").2.2 = [] := by
  decide

/-- C4 amended: a POST whose repository_full_name fails the owner/repo
pattern is rejected with status 500 and success false, before any
token-vault lookup or third-party call and without touching the store. -/
theorem import_malformed_name_fails_before_external_calls
    (db : Db) (u : SupaUser) (body : ImportBody)
    (fetch : String → String → Except JsError GithubApiRepository)
    (now newId : String)
    (hbad : importSchemaValid body.repository_full_name = false) :
    (projectsPOST db (Except.ok u) body fetch now newId).1.status = 500 ∧
    (projectsPOST db (Except.ok u) body fetch now newId).1.body.success = false ∧
    (projectsPOST db (Except.ok u) body fetch now newId).2.1 = db ∧
    (projectsPOST db (Except.ok u) body fetch now newId).2.2 = [] := by
  simp [projectsPOST, hbad, catchReply, standardResponse, errorStatus, zodError]

/-- Witness for the amended C4 at the concrete malformed input. -/
theorem import_malformed_name_fails_before_external_calls_witness :
    (projectsPOST sampleDb (Except.ok { id := "owner-1" })
        { repository_full_name := "no-slash" }
        (fun _ _ => Except.error (plainError "unreachable")) "t1" "gen-1").1.status = 500 ∧
    (projectsPOST sampleDb (Except.ok { id := "owner-1" })
        { repository_full_name := "no-slash" }
        (fun _ _ => Except.error (plainError "unreachable")) "t1" "gen-1").1.body.success = false ∧
    (projectsPOST sampleDb (Except.ok { id := "owner-1" })
        { repository_full_name := "no-slash" }
        (fun _ _ => Except.error (plainError "unreachable")) "t1" "gen-1").2.1 = sampleDb ∧
    (projectsPOST sampleDb (Except.ok { id := "owner-1" })
        { repository_full_name := "no-slash" }
        (fun _ _ => Except.error (plainError "unreachable")) "t1" "gen-1").2.2 = [] :=
  import_malformed_name_fails_before_external_calls sampleDb
    { id := "owner-1" } { repository_full_name := "no-slash" }
    (fun _ _ => Except.error (plainError "unreachable")) "t1" "gen-1" (by decide)

/-- C8 counterexample: reading the profile of a user with no profile row
returns none and creates nothing: no row for that identity exists after
the read. -/
theorem profile_read_implicit_creation_counterexample :
    (getProfileByUserIdS [] "user-1").1 = none ∧
    ¬ ∃ p ∈ (getProfileByUserIdS [] "user-1").2, p.id = "user-1" := by
  refine ⟨rfl, ?_⟩
  rintro ⟨p, hp, -⟩
  simp [getProfileByUserIdS] at hp

/-- C8 amended: a profile read never mutates the profiles table; it
returns the stored row when one exists and none (no implicit creation,
no default role) when none does. -/
theorem profile_read_leaves_profiles_unchanged
    (profiles : List ProfileRow) (userId : String) :
    (getProfileByUserIdS profiles userId).2 = profiles ∧
    (getProfileByUserIdS profiles userId).1 = getProfileByUserId profiles userId ∧
    ((getProfileByUserIdS profiles userId).1 = none ↔ ∀ p ∈ profiles, p.id ≠ userId) := by
  refine ⟨rfl, rfl, ?_⟩
  simp [getProfileByUserIdS, List.find?_eq_none]

/-- C1: an authenticated expert who does not own an existing project gets
403 with success false from the documentation PUT (and the store is left
unchanged) while the documentation GET returns 200; and any caller whose
PUT succeeds is the project owner. -/
theorem expert_nonowner_documentation_put_403_get_200
    (db : Db) (u : SupaUser) (proj : ProjectRow)
    (payload : UpdateDocPayload) (now : String)
    (hfind : db.projects.find? (fun r => r.id == proj.id) = some proj)
    (hexpert : isExpertRole (getProfileByUserId db.profiles u.id) = true)
    (hnotowner : proj.snap.user_id ≠ u.id) :
    (documentationPUT db (Except.ok u) proj.id payload now).1.status = 403 ∧
    (documentationPUT db (Except.ok u) proj.id payload now).1.body.success = false ∧
    (documentationPUT db (Except.ok u) proj.id payload now).2 = db ∧
    (documentationGET db (Except.ok u) proj.id).status = 200 ∧
    (documentationGET db (Except.ok u) proj.id).body.success = true ∧
    (∀ v : SupaUser, ∀ q : UpdateDocPayload, ∀ t : String,
      (documentationPUT db (Except.ok v) proj.id q t).1.body.success = true →
      v.id = proj.snap.user_id) := by
  have hbeq : (proj.snap.user_id == u.id) = false :=
    beq_eq_false_iff_ne.mpr hnotowner
  have hacc : ensureAccessDocumentation db proj.id u.id =
      Except.ok { project := some proj
                  profile := getProfileByUserId db.profiles u.id
                  isOwner := false, isExpert := true } := by
    simp [ensureAccessDocumentation, hfind, hbeq, hexpert]
  refine ⟨?_, ?_, ?_, ?_, ?_, ?_⟩
  · simp [documentationPUT, hacc, standardResponse]
  · simp [documentationPUT, hacc, standardResponse]
  · simp [documentationPUT, hacc]
  · rcases Bool.eq_false_or_eq_true db.documentationTableReady with hrdy | hrdy <;>
      simp [documentationGET, hacc, hrdy, standardResponse]
  · rcases Bool.eq_false_or_eq_true db.documentationTableReady with hrdy | hrdy <;>
      simp [documentationGET, hacc, hrdy, standardResponse]
  · intro v q t hsucc
    by_cases hov : proj.snap.user_id = v.id
    · exact hov.symm
    · exfalso
      have hbv : (proj.snap.user_id == v.id) = false :=
        beq_eq_false_iff_ne.mpr hov
      rcases Bool.eq_false_or_eq_true
          (isExpertRole (getProfileByUserId db.profiles v.id)) with hev | hev
      · have haccv : ensureAccessDocumentation db proj.id v.id =
            Except.ok { project := some proj
                        profile := getProfileByUserId db.profiles v.id
                        isOwner := false, isExpert := true } := by
          simp [ensureAccessDocumentation, hfind, hbv, hev]
        simp [documentationPUT, haccv, standardResponse] at hsucc
      · have haccv : ensureAccessDocumentation db proj.id v.id =
            Except.error notAuthorizedError := by
          simp [ensureAccessDocumentation, hfind, hbv, hev]
        simp [documentationPUT, haccv, catchReply, standardResponse] at hsucc

/-- Witness for C1: expert-1 (role expert) is not the owner of proj-1
(owned by owner-1) in the concrete database. -/
theorem expert_nonowner_documentation_put_403_get_200_witness :
    (documentationPUT sampleDb (Except.ok { id := "expert-1" }) sampleProject.id
        { content := none, content_text := none } "t1").1.status = 403 ∧
    (documentationPUT sampleDb (Except.ok { id := "expert-1" }) sampleProject.id
        { content := none, content_text := none } "t1").1.body.success = false ∧
    (documentationPUT sampleDb (Except.ok { id := "expert-1" }) sampleProject.id
        { content := none, content_text := none } "t1").2 = sampleDb ∧
    (documentationGET sampleDb (Except.ok { id := "expert-1" })
        sampleProject.id).status = 200 ∧
    (documentationGET sampleDb (Except.ok { id := "expert-1" })
        sampleProject.id).body.success = true ∧
    (∀ v : SupaUser, ∀ q : UpdateDocPayload, ∀ t : String,
      (documentationPUT sampleDb (Except.ok v) sampleProject.id q t).1.body.success = true →
      v.id = sampleProject.snap.user_id) :=
  expert_nonowner_documentation_put_403_get_200 sampleDb { id := "expert-1" }
    sampleProject { content := none, content_text := none } "t1"
    (by decide) (by decide) (by decide)

/-- C10: for every authenticated caller and a project id with no matching
row, all six project-scoped handlers answer 404 "Project not found" with
success false and leave the store untouched, regardless of caller
role or ownership: the ownership-or-expert 403 is never produced for a
nonexistent project. -/
theorem nonexistent_project_returns_404
    (db : Db) (u : SupaUser) (pid : String)
    (docPayload : UpdateDocPayload) (patchPayload : UpdateProjectPayload)
    (files : List UploadFile) (now nowMs : String)
    (publicUrlOf : String → Option String) (genId : Nat → String)
    (habsent : db.projects.find? (fun r => r.id == pid) = none)
    (hparse : parseProjectUpdateSchema patchPayload = Except.ok patchPayload) :
    documentationGET db (Except.ok u) pid = projectNotFoundReply DocRow ∧
    documentationPUT db (Except.ok u) pid docPayload now
      = (projectNotFoundReply DocRow, db) ∧
    attachmentsGET db (Except.ok u) pid = projectNotFoundReply (List AttachmentRow) ∧
    attachmentsPOST db (Except.ok u) pid files nowMs publicUrlOf genId
      = (projectNotFoundReply (List AttachmentRow), db) ∧
    projectDetailGET db (Except.ok u) pid
      = projectNotFoundReply (ProjectRow × List AttachmentRow) ∧
    projectDetailPATCH db (Except.ok u) pid patchPayload now
      = (projectNotFoundReply ProjectRow, db) ∧
    (projectNotFoundReply DocRow).status = 404 ∧
    (projectNotFoundReply DocRow).body.success = false ∧
    (projectNotFoundReply DocRow).body.error = some "Project not found" := by
  have hdoc : ensureAccessDocumentation db pid u.id =
      Except.ok { project := none
                  profile := getProfileByUserId db.profiles u.id
                  isOwner := false
                  isExpert := isExpertRole (getProfileByUserId db.profiles u.id) } := by
    simp [ensureAccessDocumentation, habsent]
  have hatt : ensureAccessAttachments db pid u.id =
      Except.ok { project := none
                  profile := getProfileByUserId db.profiles u.id } := by
    simp [ensureAccessAttachments, habsent]
  refine ⟨?_, ?_, ?_, ?_, ?_, ?_, ?_, ?_, ?_⟩
  · simp [documentationGET, hdoc]
  · simp [documentationPUT, hdoc]
  · simp [attachmentsGET, hatt]
  · simp [attachmentsPOST, hatt]
  · simp [projectDetailGET, habsent]
  · simp [projectDetailPATCH, habsent, hparse]
  · rfl
  · rfl
  · rfl

/-- Witness for C10 at a project id absent from the concrete database,
with a caller who is neither an owner nor an expert. -/
theorem nonexistent_project_returns_404_witness :
    documentationGET sampleDb (Except.ok { id := "user-2" }) "missing-1"
      = projectNotFoundReply DocRow ∧
    documentationPUT sampleDb (Except.ok { id := "user-2" }) "missing-1"
        { content := none, content_text := none } "t1"
      = (projectNotFoundReply DocRow, sampleDb) ∧
    attachmentsGET sampleDb (Except.ok { id := "user-2" }) "missing-1"
      = projectNotFoundReply (List AttachmentRow) ∧
    attachmentsPOST sampleDb (Except.ok { id := "user-2" }) "missing-1" []
        "100" (fun _ => none) (fun _ => "att-1")
      = (projectNotFoundReply (List AttachmentRow), sampleDb) ∧
    projectDetailGET sampleDb (Except.ok { id := "user-2" }) "missing-1"
      = projectNotFoundReply (ProjectRow × List AttachmentRow) ∧
    projectDetailPATCH sampleDb (Except.ok { id := "user-2" }) "missing-1"
        { notes := none, tags := none, status := none } "t1"
      = (projectNotFoundReply ProjectRow, sampleDb) ∧
    (projectNotFoundReply DocRow).status = 404 ∧
    (projectNotFoundReply DocRow).body.success = false ∧
    (projectNotFoundReply DocRow).body.error = some "Project not found" :=
  nonexistent_project_returns_404 sampleDb { id := "user-2" } "missing-1"
    { content := none, content_text := none }
    { notes := none, tags := none, status := none } [] "t1" "100"
    (fun _ => none) (fun _ => "att-1") (by decide) rfl

/-- Length of the flattened calendar when every week holds 7 days. -/
theorem flattenContributions_length (weeks : List GithubContributionWeekApi)
    (h7 : ∀ w ∈ weeks, w.contributionDays.length = 7) :
    (flattenContributions weeks).length = 7 * weeks.length := by
  induction weeks with
  | nil => simp [flattenContributions]
  | cons w rest ih =>
    have hw : w.contributionDays.length = 7 := h7 w (by simp)
    have hrest : ∀ x ∈ rest, x.contributionDays.length = 7 :=
      fun x hx => h7 x (by simp [hx])
    have hr := ih hrest
    simp only [flattenContributions, List.flatMap_cons, List.length_append,
      List.length_map, hw] at hr ⊢
    rw [hr]
    simp only [List.length_cons]
    ring

/-- Entry 7 i + j of the flattened calendar is day j of week i, carrying
its date and count (week-then-day order). -/
theorem flattenContributions_get (weeks : List GithubContributionWeekApi)
    (h7 : ∀ w ∈ weeks, w.contributionDays.length = 7)
    (i j : Nat) (hi : i < weeks.length) (hj : j < 7) :
    (flattenContributions weeks)[7 * i + j]? =
      weeks[i]?.bind (fun w => (w.contributionDays[j]?).map
        (fun day => { date := day.date, count := day.contributionCount })) := by
  induction weeks generalizing i with
  | nil => simp at hi
  | cons w rest ih =>
    have hw : w.contributionDays.length = 7 := h7 w (by simp)
    have hrest : ∀ x ∈ rest, x.contributionDays.length = 7 :=
      fun x hx => h7 x (by simp [hx])
    cases i with
    | zero =>
      simp only [flattenContributions, List.flatMap_cons, Nat.mul_zero,
        Nat.zero_add, List.getElem?_cons_zero, Option.bind_some]
      rw [List.getElem?_append]
      simp [hw, hj, List.getElem?_map]
    | succ i' =>
      have hi' : i' < rest.length := by simpa using hi
      have hlen : (w.contributionDays.map (fun day =>
          ({ date := day.date, count := day.contributionCount } : ContributionEntry))).length
            ≤ 7 * (i' + 1) + j := by
        simp [hw]
        omega
      simp only [flattenContributions, List.flatMap_cons]
      rw [List.getElem?_append_right hlen]
      have hidx : 7 * (i' + 1) + j -
          (w.contributionDays.map (fun day =>
            ({ date := day.date, count := day.contributionCount } : ContributionEntry))).length
          = 7 * i' + j := by
        simp [hw]
        omega
      rw [hidx]
      simpa [flattenContributions] using ih hrest i' hi'

/-- C6: for a successful contributions GET over a calendar of N weeks of
7 days each, the handler replies 200 with a flattened sequence of exactly
7 N entries, where entry 7 i + j is day j of week i with its original
date and contributionCount. -/
theorem contributions_flattening_preserves_days
    (db : Db) (u : SupaUser) (tok : String)
    (fetch : String → Except JsError GithubContributionsResponse)
    (cal : GithubContributionCalendarApi)
    (htok : getGithubTokenForUser db.user_tokens u.id = Except.ok tok)
    (hfetch : fetch tok = Except.ok { calendar := some cal })
    (h7 : ∀ w ∈ cal.weeks, w.contributionDays.length = 7) :
    (contributionsGET db (Except.ok u) fetch).status = 200 ∧
    (contributionsGET db (Except.ok u) fetch).body.success = true ∧
    (contributionsGET db (Except.ok u) fetch).body.data
      = some { total_contributions := cal.totalContributions
               contributions := flattenContributions cal.weeks } ∧
    (flattenContributions cal.weeks).length = 7 * cal.weeks.length ∧
    (∀ i j, i < cal.weeks.length → j < 7 →
      (flattenContributions cal.weeks)[7 * i + j]? =
        cal.weeks[i]?.bind (fun w => (w.contributionDays[j]?).map
          (fun day => { date := day.date, count := day.contributionCount }))) := by
  refine ⟨?_, ?_, ?_, flattenContributions_length cal.weeks h7,
    fun i j hi hj => flattenContributions_get cal.weeks h7 i j hi hj⟩ <;>
  simp [contributionsGET, htok, hfetch, standardResponse]

/-- Witness for C6 with a concrete two-week calendar. -/
theorem contributions_flattening_preserves_days_witness :
    (contributionsGET sampleDb (Except.ok { id := "owner-1" })
        (fun _ => Except.ok { calendar := some sampleCalendar })).status = 200 ∧
    (contributionsGET sampleDb (Except.ok { id := "owner-1" })
        (fun _ => Except.ok { calendar := some sampleCalendar })).body.success = true ∧
    (contributionsGET sampleDb (Except.ok { id := "owner-1" })
        (fun _ => Except.ok { calendar := some sampleCalendar })).body.data
      = some { total_contributions := sampleCalendar.totalContributions
               contributions := flattenContributions sampleCalendar.weeks } ∧
    (flattenContributions sampleCalendar.weeks).length
      = 7 * sampleCalendar.weeks.length ∧
    (∀ i j, i < sampleCalendar.weeks.length → j < 7 →
      (flattenContributions sampleCalendar.weeks)[7 * i + j]? =
        sampleCalendar.weeks[i]?.bind (fun w => (w.contributionDays[j]?).map
          (fun day => { date := day.date, count := day.contributionCount }))) :=
  contributions_flattening_preserves_days sampleDb { id := "owner-1" } "tok-1"
    (fun _ => Except.ok { calendar := some sampleCalendar }) sampleCalendar
    rfl rfl (by decide)

/-- Upsert keyed by github_repo_id: under the unique-key invariant the
resulting table holds exactly one row for the repository id of the record, and
that row carries the new snapshot. -/
theorem upsertProject_filter (projects : List ProjectRow)
    (rec : ImportSnapshot) (newId : String)
    (huniq : (projects.filter
      (fun r => r.snap.github_repo_id == rec.github_repo_id)).length ≤ 1) :
    ((upsertProject projects rec newId).filter
        (fun r => r.snap.github_repo_id == rec.github_repo_id)).map
      (fun r => r.snap) = [rec] := by
  rcases Bool.eq_false_or_eq_true
      (projects.any (fun r => r.snap.github_repo_id == rec.github_repo_id))
    with hany | hany
  · have hstable : ∀ r ∈ projects,
        (((if r.snap.github_repo_id == rec.github_repo_id then
            { r with snap := rec } else r)).snap.github_repo_id
          == rec.github_repo_id)
        = (r.snap.github_repo_id == rec.github_repo_id) := by
      intro r _
      rcases Bool.eq_false_or_eq_true (r.snap.github_repo_id == rec.github_repo_id)
        with h | h <;> simp [h]
    obtain ⟨x, hxmem, hx⟩ := List.any_eq_true.mp hany
    have hxf : x ∈ projects.filter
        (fun r => r.snap.github_repo_id == rec.github_repo_id) :=
      List.mem_filter.mpr ⟨hxmem, hx⟩
    have hpos : 0 < (projects.filter
        (fun r => r.snap.github_repo_id == rec.github_repo_id)).length :=
      List.length_pos.mpr (List.ne_nil_of_mem hxf)
    have h1 : (projects.filter
        (fun r => r.snap.github_repo_id == rec.github_repo_id)).length = 1 :=
      Nat.le_antisymm huniq hpos
    obtain ⟨r0, hr0⟩ := List.length_eq_one.mp h1
    have hp0 : (r0.snap.github_repo_id == rec.github_repo_id) = true := by
      have : r0 ∈ projects.filter
          (fun r => r.snap.github_repo_id == rec.github_repo_id) := by
        rw [hr0]; exact List.mem_cons_self r0 []
      exact (List.mem_filter.mp this).2
    simp only [upsertProject, hany, if_true, List.filter_map, Function.comp_def]
    rw [List.filter_congr hstable, hr0]
    have hp0e : r0.snap.github_repo_id = rec.github_repo_id := by simpa using hp0
    simp [hp0e]
  · have hnone : projects.filter
        (fun r => r.snap.github_repo_id == rec.github_repo_id) = [] :=
      List.filter_eq_nil_iff.mpr (List.any_eq_false.mp hany)
    simp [upsertProject, hany, List.filter_append, hnone]

/-- Successful import: the handler commits the upsert of the fetched
snapshot into the projects table, leaving every other table unchanged. -/
theorem projectsPOST_success (db : Db) (u : SupaUser) (body : ImportBody)
    (fetch : String → String → Except JsError GithubApiRepository)
    (now newId tok : String) (repo : GithubApiRepository)
    (hvalid : importSchemaValid body.repository_full_name = true)
    (htok : getGithubTokenForUser db.user_tokens u.id = Except.ok tok)
    (hfetch : fetch tok body.repository_full_name = Except.ok repo) :
    (projectsPOST db (Except.ok u) body fetch now newId).2.1 =
      { db with projects := upsertProject db.projects (importRecord u.id repo body.repository_full_name now) newId } := by
  simp [projectsPOST, hvalid, htok, hfetch]

/-- C5: importing the same repository id twice leaves exactly one Project
row for that id, whose snapshot fields are those of the second import;
the upsert is keyed on the third-party repository id. -/
theorem reimport_same_repo_updates_single_row
    (db : Db) (u1 u2 : SupaUser) (body1 body2 : ImportBody)
    (fetch1 fetch2 : String → String → Except JsError GithubApiRepository)
    (now1 now2 id1 id2 tok1 tok2 : String)
    (repo1 repo2 : GithubApiRepository)
    (hv1 : importSchemaValid body1.repository_full_name = true)
    (hv2 : importSchemaValid body2.repository_full_name = true)
    (ht1 : getGithubTokenForUser db.user_tokens u1.id = Except.ok tok1)
    (ht2 : getGithubTokenForUser db.user_tokens u2.id = Except.ok tok2)
    (hf1 : fetch1 tok1 body1.repository_full_name = Except.ok repo1)
    (hf2 : fetch2 tok2 body2.repository_full_name = Except.ok repo2)
    (hid : repo1.id = repo2.id)
    (huniq : (db.projects.filter
      (fun r => r.snap.github_repo_id == repo2.id)).length ≤ 1) :
    (((projectsPOST ((projectsPOST db (Except.ok u1) body1 fetch1 now1 id1).2.1)
          (Except.ok u2) body2 fetch2 now2 id2).2.1).projects.filter
        (fun r => r.snap.github_repo_id == repo2.id)).map (fun r => r.snap)
      = [importRecord u2.id repo2 body2.repository_full_name now2] := by
  have hdb1 := projectsPOST_success db u1 body1 fetch1 now1 id1 tok1 repo1 hv1 ht1 hf1
  have hrec1 : (importRecord u1.id repo1 body1.repository_full_name now1).github_repo_id
      = repo2.id := by
    simp [importRecord, hid]
  have hfirst : ((upsertProject db.projects
        (importRecord u1.id repo1 body1.repository_full_name now1) id1).filter
        (fun r => r.snap.github_repo_id == repo2.id)).map (fun r => r.snap)
      = [importRecord u1.id repo1 body1.repository_full_name now1] := by
    have := upsertProject_filter db.projects
      (importRecord u1.id repo1 body1.repository_full_name now1) id1
      (by rw [hrec1]; exact huniq)
    rw [hrec1] at this
    exact this
  have huniq1 : ((upsertProject db.projects
        (importRecord u1.id repo1 body1.repository_full_name now1) id1).filter
        (fun r => r.snap.github_repo_id == repo2.id)).length ≤ 1 := by
    have hlen := congrArg List.length hfirst
    simp only [List.length_map, List.length_cons, List.length_nil] at hlen
    omega
  rw [hdb1]
  have ht2b : getGithubTokenForUser
      ({ db with projects := upsertProject db.projects (importRecord u1.id repo1 body1.repository_full_name now1) id1 } : Db).user_tokens
      u2.id = Except.ok tok2 := ht2
  have hdb2 := projectsPOST_success
    { db with projects := upsertProject db.projects (importRecord u1.id repo1 body1.repository_full_name now1) id1 }
    u2 body2 fetch2 now2 id2 tok2 repo2 hv2 ht2b hf2
  rw [hdb2]
  have hrec2 : (importRecord u2.id repo2 body2.repository_full_name now2).github_repo_id
      = repo2.id := by
    simp [importRecord]
  have := upsertProject_filter
    (upsertProject db.projects
      (importRecord u1.id repo1 body1.repository_full_name now1) id1)
    (importRecord u2.id repo2 body2.repository_full_name now2) id2
    (by rw [hrec2]; exact huniq1)
  rw [hrec2] at this
  exact this

/-- Witness for C5: importing octocat/Hello-World twice into an empty
projects table ends with the single row holding the second snapshot. -/
theorem reimport_same_repo_updates_single_row_witness :
    (((projectsPOST ((projectsPOST sampleDb (Except.ok { id := "owner-1" })
            { repository_full_name := "octocat/Hello-World" }
            (fun _ _ => Except.ok sampleRepo) "t1" "gen-1").2.1)
          (Except.ok { id := "owner-1" })
          { repository_full_name := "octocat/Hello-World" }
          (fun _ _ => Except.ok { sampleRepo with stargazers_count := some 9 })
          "t2" "gen-2").2.1).projects.filter
        (fun r => r.snap.github_repo_id
          == ({ sampleRepo with stargazers_count := some 9 } : GithubApiRepository).id)).map
      (fun r => r.snap)
      = [importRecord "owner-1" { sampleRepo with stargazers_count := some 9 }
          "octocat/Hello-World" "t2"] :=
  reimport_same_repo_updates_single_row sampleDb
    { id := "owner-1" } { id := "owner-1" }
    { repository_full_name := "octocat/Hello-World" }
    { repository_full_name := "octocat/Hello-World" }
    (fun _ _ => Except.ok sampleRepo)
    (fun _ _ => Except.ok { sampleRepo with stargazers_count := some 9 })
    "t1" "t2" "gen-1" "gen-2" "tok-1" "tok-1"
    sampleRepo { sampleRepo with stargazers_count := some 9 }
    (by decide) (by decide) rfl rfl rfl rfl rfl (by decide)

/-- C7 counterexample: a 404 upstream response with body "Not Found"
produces an error that carries no status property, and the import handler
surfaces 500, not the upstream 404, contradicting the claim that the
envelope surfaces the upstream status. -/
theorem upstream_status_not_surfaced_counterexample :
    githubRequest GithubApiRepository { status := 404, body := "Not Found" }
        (fun _ => sampleRepo)
      = Except.error { name := "Error", message := "Not Found", status := none } ∧
    (projectsPOST sampleDb (Except.ok { id := "owner-1" })
        { repository_full_name := "octocat/Hello-World" }
        (fun _ _ => githubRequest GithubApiRepository
          { status := 404, body := "Not Found" } (fun _ => sampleRepo))
        "t1" "gen-1").1.status = 500 ∧
    ¬ (projectsPOST sampleDb (Except.ok { id := "owner-1" })
        { repository_full_name := "octocat/Hello-World" }
        (fun _ _ => githubRequest GithubApiRepository
          { status := 404, body := "Not Found" } (fun _ => sampleRepo))
        "t1" "gen-1").1.status = 404 :=
  ⟨rfl, by decide, by decide⟩

/-- C7 amended: a non-2xx upstream response with a non-empty body makes
the repository client fail with a plain error carrying the upstream body
text only (no status property); the import handler therefore surfaces
status 500 with that body text as the message, leaving the store
unchanged. -/
theorem upstream_error_carries_body_text_maps_to_500
    (db : Db) (u : SupaUser) (body : ImportBody)
    (fetch : String → String → Except JsError GithubApiRepository)
    (now newId tok : String) (r : HttpResponse)
    (parse : String → GithubApiRepository)
    (hvalid : importSchemaValid body.repository_full_name = true)
    (htok : getGithubTokenForUser db.user_tokens u.id = Except.ok tok)
    (hbad : responseOk r = false) (hbody : r.body ≠ "")
    (hfetch : fetch tok body.repository_full_name
      = githubRequest GithubApiRepository r parse) :
    githubRequest GithubApiRepository r parse
      = Except.error (plainError r.body) ∧
    (projectsPOST db (Except.ok u) body fetch now newId).1.status = 500 ∧
    (projectsPOST db (Except.ok u) body fetch now newId).1.body.success = false ∧
    (projectsPOST db (Except.ok u) body fetch now newId).1.body.error
      = some r.body ∧
    (projectsPOST db (Except.ok u) body fetch now newId).2.1 = db := by
  have hreq : githubRequest GithubApiRepository r parse
      = Except.error (plainError r.body) := by
    simp [githubRequest, hbad, hbody]
  have hf : fetch tok body.repository_full_name
      = Except.error (plainError r.body) := by rw [hfetch, hreq]
  refine ⟨hreq, ?_, ?_, ?_, ?_⟩ <;>
    simp [projectsPOST, hvalid, htok, hf, catchReply, standardResponse,
      errorStatus, plainError, hbody]

/-- Witness for the amended C7 at the concrete 404 upstream response. -/
theorem upstream_error_carries_body_text_maps_to_500_witness :
    githubRequest GithubApiRepository { status := 404, body := "Not Found" }
        (fun _ => sampleRepo)
      = Except.error (plainError "Not Found") ∧
    (projectsPOST sampleDb (Except.ok { id := "owner-1" })
        { repository_full_name := "octocat/Hello-World" }
        (fun _ _ => githubRequest GithubApiRepository
          { status := 502, body := "Not Found" } (fun _ => sampleRepo))
        "t1" "gen-1").1.status = 500 ∧
    (projectsPOST sampleDb (Except.ok { id := "owner-1" })
        { repository_full_name := "octocat/Hello-World" }
        (fun _ _ => githubRequest GithubApiRepository
          { status := 502, body := "Not Found" } (fun _ => sampleRepo))
        "t1" "gen-1").1.body.success = false ∧
    (projectsPOST sampleDb (Except.ok { id := "owner-1" })
        { repository_full_name := "octocat/Hello-World" }
        (fun _ _ => githubRequest GithubApiRepository
          { status := 502, body := "Not Found" } (fun _ => sampleRepo))
        "t1" "gen-1").1.body.error = some "Not Found" ∧
    (projectsPOST sampleDb (Except.ok { id := "owner-1" })
        { repository_full_name := "octocat/Hello-World" }
        (fun _ _ => githubRequest GithubApiRepository
          { status := 502, body := "Not Found" } (fun _ => sampleRepo))
        "t1" "gen-1").2.1 = sampleDb := by
  have h := upstream_error_carries_body_text_maps_to_500 sampleDb
    { id := "owner-1" } { repository_full_name := "octocat/Hello-World" }
    (fun _ _ => githubRequest GithubApiRepository
      { status := 502, body := "Not Found" } (fun _ => sampleRepo))
    "t1" "gen-1" "tok-1" { status := 502, body := "Not Found" }
    (fun _ => sampleRepo) (by decide) rfl (by decide) (by decide) rfl
  exact ⟨rfl, h.2.1, h.2.2.1, h.2.2.2.1, h.2.2.2.2⟩

/-- Membership survives inserting into a descending-sorted list. -/
theorem mem_insertDesc (α : Type) (key : α → Nat) (a b : α) (l : List α) :
    a ∈ insertDesc α key b l ↔ a = b ∨ a ∈ l := by
  induction l with
  | nil => simp [insertDesc]
  | cons c cs ih =>
    by_cases h : key c ≤ key b
    · simp [insertDesc, h, List.mem_cons]
    · simp only [insertDesc, h, if_false, List.mem_cons, ih]
      tauto

/-- Sorting by stars preserves membership. -/
theorem mem_sortDesc (α : Type) (key : α → Nat) (a : α) (l : List α) :
    a ∈ sortDesc α key l ↔ a ∈ l := by
  induction l with
  | nil => simp [sortDesc]
  | cons c cs ih => simp [sortDesc, mem_insertDesc, ih]

/-- One grouping step keeps every already-grouped project grouped under
its owner. -/
theorem addToGroups_preserves (acc : List OwnerGroup)
    (p q : ProjectRow × Option ProfileRow)
    (h : ∃ g ∈ acc, g.owner_id = q.1.snap.user_id ∧ q ∈ g.projects) :
    ∃ g ∈ addToGroups acc p, g.owner_id = q.1.snap.user_id ∧ q ∈ g.projects := by
  obtain ⟨g, hg, hid, hq⟩ := h
  rcases Bool.eq_false_or_eq_true
      (acc.any (fun g2 => g2.owner_id == p.1.snap.user_id)) with hany | hany
  · simp only [addToGroups, hany, if_true]
    refine ⟨(fun g2 => if g2.owner_id == p.1.snap.user_id then
        { g2 with projects := g2.projects ++ [p] } else g2) g,
      List.mem_map_of_mem _ hg, ?_⟩
    rcases Bool.eq_false_or_eq_true (g.owner_id == p.1.snap.user_id)
      with hgp | hgp
    · have hphi : ((fun g2 => if g2.owner_id == p.1.snap.user_id then
          { g2 with projects := g2.projects ++ [p] } else g2) g)
          = { g with projects := g.projects ++ [p] } := by
        simp [hgp]
      rw [hphi]
      exact ⟨hid, List.mem_append_left _ hq⟩
    · have hphi : ((fun g2 => if g2.owner_id == p.1.snap.user_id then
          { g2 with projects := g2.projects ++ [p] } else g2) g) = g := by
        simp [hgp]
      rw [hphi]
      exact ⟨hid, hq⟩
  · simp only [addToGroups, hany]
    exact ⟨g, List.mem_append_left _ hg, hid, hq⟩

/-- One grouping step groups the incoming project under its owner. -/
theorem addToGroups_adds (acc : List OwnerGroup)
    (p : ProjectRow × Option ProfileRow) :
    ∃ g ∈ addToGroups acc p, g.owner_id = p.1.snap.user_id ∧ p ∈ g.projects := by
  rcases Bool.eq_false_or_eq_true
      (acc.any (fun g2 => g2.owner_id == p.1.snap.user_id)) with hany | hany
  · obtain ⟨g0, hg0, hid0⟩ := List.any_eq_true.mp hany
    simp only [addToGroups, hany, if_true]
    refine ⟨(fun g2 => if g2.owner_id == p.1.snap.user_id then
        { g2 with projects := g2.projects ++ [p] } else g2) g0,
      List.mem_map_of_mem _ hg0, ?_⟩
    simp [hid0, List.mem_append]
    simpa using hid0
  · simp only [addToGroups, hany]
    refine ⟨{ owner_id := p.1.snap.user_id, owner := p.2, projects := [p] },
      List.mem_append_right _ (by simp), rfl, by simp⟩

/-- Folding the grouping over a list groups every listed project (and
keeps every already-grouped one). -/
theorem groupProjects_mem_aux (l : List (ProjectRow × Option ProfileRow))
    (acc : List OwnerGroup) (q : ProjectRow × Option ProfileRow)
    (h : q ∈ l ∨ ∃ g ∈ acc, g.owner_id = q.1.snap.user_id ∧ q ∈ g.projects) :
    ∃ g ∈ l.foldl addToGroups acc, g.owner_id = q.1.snap.user_id ∧ q ∈ g.projects := by
  induction l generalizing acc with
  | nil =>
    rcases h with h | h
    · simp at h
    · simpa using h
  | cons p rest ih =>
    simp only [List.foldl_cons]
    apply ih
    rcases h with h | h
    · rcases List.mem_cons.mp h with h | hmem
      · subst h
        exact Or.inr (addToGroups_adds acc q)
      · exact Or.inl hmem
    · exact Or.inr (addToGroups_preserves acc p q h)

/-- C9: the expert view of GET /api/projects answers 200 for every
authenticated caller, its payload does not depend on the caller at all
(so no role check is applied on this read path), and every project of
every user appears in the group of its owner. -/
theorem expert_view_no_role_check_groups_all_projects
    (db : Db) (u : SupaUser) :
    (projectsGET db (Except.ok u) (some "expert")).status = 200 ∧
    (projectsGET db (Except.ok u) (some "expert")).body.success = true ∧
    (∀ v : SupaUser, projectsGET db (Except.ok v) (some "expert")
      = projectsGET db (Except.ok u) (some "expert")) ∧
    ∃ groups,
      (projectsGET db (Except.ok u) (some "expert")).body.data
        = some (ProjectsGETData.grouped groups) ∧
      ∀ p ∈ db.projects, ∃ g ∈ groups, g.owner_id = p.snap.user_id ∧
        ∃ pr, (p, pr) ∈ g.projects := by
  refine ⟨by simp [projectsGET, standardResponse],
    by simp [projectsGET, standardResponse], fun v => rfl, ?_⟩
  refine ⟨_, rfl, ?_⟩
  intro p hp
  have hsorted : p ∈ sortDesc ProjectRow (fun p => p.snap.stars) db.projects :=
    (mem_sortDesc ProjectRow (fun p => p.snap.stars) p db.projects).mpr hp
  have hpair : (p, (db.profiles.filter (fun pr =>
      (expertUserIds (sortDesc ProjectRow (fun p => p.snap.stars) db.projects)).contains pr.id)).find?
        (fun pr => pr.id == p.snap.user_id)) ∈
      (sortDesc ProjectRow (fun p => p.snap.stars) db.projects).map (fun p2 =>
        (p2, (db.profiles.filter (fun pr =>
          (expertUserIds (sortDesc ProjectRow (fun p => p.snap.stars) db.projects)).contains pr.id)).find?
            (fun pr => pr.id == p2.snap.user_id))) :=
    List.mem_map_of_mem _ hsorted
  have := groupProjects_mem_aux _ [] _ (Or.inl hpair)
  obtain ⟨g, hg, hid, hmem⟩ := this
  exact ⟨g, hg, hid, _, hmem⟩

/-- Witness for the amended C8 at a concrete one-row profiles table. -/
theorem profile_read_leaves_profiles_unchanged_witness :
    (getProfileByUserIdS [ownerProfile] "owner-1").2 = [ownerProfile] ∧
    (getProfileByUserIdS [ownerProfile] "owner-1").1
      = getProfileByUserId [ownerProfile] "owner-1" ∧
    ((getProfileByUserIdS [ownerProfile] "owner-1").1 = none ↔
      ∀ p ∈ [ownerProfile], p.id ≠ "owner-1") :=
  profile_read_leaves_profiles_unchanged [ownerProfile] "owner-1"

/-- Witness for C9 with a developer-role caller against the concrete
database. -/
theorem expert_view_no_role_check_groups_all_projects_witness :
    (projectsGET sampleDb (Except.ok { id := "owner-1" }) (some "expert")).status = 200 ∧
    (projectsGET sampleDb (Except.ok { id := "owner-1" }) (some "expert")).body.success = true ∧
    (∀ v : SupaUser, projectsGET sampleDb (Except.ok v) (some "expert")
      = projectsGET sampleDb (Except.ok { id := "owner-1" }) (some "expert")) ∧
    ∃ groups,
      (projectsGET sampleDb (Except.ok { id := "owner-1" }) (some "expert")).body.data
        = some (ProjectsGETData.grouped groups) ∧
      ∀ p ∈ sampleDb.projects, ∃ g ∈ groups, g.owner_id = p.snap.user_id ∧
        ∃ pr, (p, pr) ∈ g.projects :=
  expert_view_no_role_check_groups_all_projects sampleDb { id := "owner-1" }

end DyProject
